import Mathlib

/-!
Shallow embedding of the car-components supply-chain chaincode
(`SmartContract` in the Go source): the `CarComponent` and `Car` records,
the ledger as a partial map from string keys to stored records, and the
nine chaincode operations dispatched by `Invoke`.

Modelling conventions, matching the Go/Fabric semantics:
* `stub.GetState k` returns the bytes stored under `k`, or nil when absent;
  we model the ledger as `String → Option Record` where `Record` is the
  JSON payload actually stored (always the `json.Marshal` of either a
  `CarComponent` or a `Car` in this chaincode).
* `json.Unmarshal` of nil bytes leaves the target at its zero value;
  unmarshalling a `Car` payload into a `CarComponent` (or vice versa) also
  yields the zero value, because the JSON field names of the two structs
  are disjoint (even case-insensitively): `retired`/`Owner`/`carid` versus
  `ComponentID`.  `asComponent` and `asCar` capture both facts.
* `strings.EqualFold` is simple case folding; every role and field string
  this chaincode compares is ASCII, so ASCII case folding (`Char.toLower`)
  is the faithful model.
* `strings.Split s "."` followed by `[0]` is the prefix of `s` before the
  first dot.
* `strconv.Atoi` succeeds exactly on an optional ASCII sign followed by a
  nonempty run of decimal digits (a 9-character string cannot overflow
  64-bit int, so the overflow path of `ParseInt` is unreachable here).
* `stub.PutState` cannot fail in this model (its error branches in the Go
  code are dead under the Fabric world-state interface for this chaincode),
  so each operation is a total function `List String → Ledger →
  Response × Ledger`.
-/

/-- The Go `CarComponent` struct: fields `Retired`, `Owner`, `CarID`. -/
structure CarComponent where
  Retired : Bool
  Owner   : String
  CarID   : String
deriving Repr, DecidableEq

/-- The Go `Car` struct: single field `ComponentID`. -/
structure Car where
  ComponentID : String
deriving Repr, DecidableEq

/-- A stored ledger value: the marshalled form of a component or a car
(this chaincode never stores anything else). -/
inductive Record where
  | comp (c : CarComponent)
  | car  (k : Car)
deriving Repr, DecidableEq

/-- The world state: each key holds a record or is absent. -/
def Ledger : Type := String → Option Record

/-- A peer response: `shim.Success` with an optional payload, or
`shim.Error` with a message. -/
inductive Response where
  | success (payload : Option Record)
  | error   (msg : String)
deriving Repr, DecidableEq

/-- `stub.PutState`: overwrite one key of the world state. -/
def put (L : Ledger) (k : String) (v : Record) : Ledger :=
  fun x => if x = k then some v else L x

/-- The empty world state. -/
def emptyLedger : Ledger := fun _ => none

/-- `json.Unmarshal` of a fetched value into a `CarComponent` target:
absent bytes or a `Car` payload leave the zero value. -/
def asComponent : Option Record → CarComponent
  | some (Record.comp c) => c
  | _ => ⟨false, "", ""⟩

/-- `json.Unmarshal` of a fetched value into a `Car` target:
absent bytes or a `CarComponent` payload leave the zero value. -/
def asCar : Option Record → Car
  | some (Record.car k) => k
  | _ => ⟨""⟩

/-- `strings.EqualFold` restricted to ASCII case folding (all strings the
chaincode compares with it are ASCII). -/
def eqFold (a b : String) : Bool :=
  a.data.map Char.toLower == b.data.map Char.toLower

/-- `strings.Split s "."` then `[0]`: the segment before the first dot. -/
def firstDot (s : String) : String :=
  String.mk (s.data.takeWhile (fun c => c != '.'))

/-- `strconv.Atoi` success predicate: optional sign, then a nonempty run
of decimal digits (no overflow is possible at the 9-character lengths
this chaincode feeds it). -/
def atoiOk (s : String) : Bool :=
  match s.data with
  | [] => false
  | c :: rest =>
    let digits := if c = '+' || c = '-' then rest else c :: rest
    !digits.isEmpty && digits.all Char.isDigit

/-- Go `CheckIDFormat`: length must be 9 and `strconv.Atoi` must accept
the string. -/
def CheckIDFormat (ComponentID : String) : Bool :=
  if ComponentID.length ≠ 9 then
    false
  else if !atoiOk ComponentID then
    false
  else
    true

/-- Go `InitLedger`: writes the six fixed sample components at keys
`"000000000"` … `"000000005"`, in loop order, and always succeeds. -/
def InitLedger (L : Ledger) : Response × Ledger :=
  let L0 := put L  "000000000" (Record.comp ⟨false, "Supplier.s0",    "CAR0"⟩)
  let L1 := put L0 "000000001" (Record.comp ⟨false, "Supplier.s1",    "CAR1"⟩)
  let L2 := put L1 "000000002" (Record.comp ⟨false, "Manufacture.m0", "CAR2"⟩)
  let L3 := put L2 "000000003" (Record.comp ⟨false, "Manufacture.m2", "CAR3"⟩)
  let L4 := put L3 "000000004" (Record.comp ⟨false, "Dealer.d0",      "CAR4"⟩)
  let L5 := put L4 "000000005" (Record.comp ⟨true,  "Dealer.d1",      "CAR5"⟩)
  (Response.success none, L5)

/-- Go `AddComponent(role, componentID)`. -/
def AddComponent (args : List String) (L : Ledger) : Response × Ledger :=
  if args.length ≠ 2 then
    (Response.error "Incorrect number of argument: expect 2.", L)
  else
    let rolename := args.getD 0 ""
    let role := firstDot rolename
    if eqFold role "Supplier" = false then
      (Response.error "Incorrect role: expect Supplier.", L)
    else
      let ComponentID := args.getD 1 ""
      if CheckIDFormat ComponentID = false then
        (Response.error "Incorrect ComponentID format: expect 9-digit string", L)
      else if (L ComponentID).isSome then
        (Response.error "The given ComponentID is already used.", L)
      else
        (Response.success none,
          put L ComponentID (Record.comp ⟨false, rolename, ""⟩))

/-- Go `TransferComponent(role, newOwner, componentID)`. -/
def TransferComponent (args : List String) (L : Ledger) : Response × Ledger :=
  if args.length ≠ 3 then
    (Response.error "Incorrect number of arguments, expecting 3.", L)
  else
    let ComponentID := args.getD 2 ""
    if CheckIDFormat ComponentID = false then
      (Response.error "Incorrect ComponentID format: expect 9-digit string", L)
    else
      let rolename := args.getD 0 ""
      let newOwner := args.getD 1 ""
      let component := asComponent (L ComponentID)
      let oldOwner := component.Owner
      if eqFold oldOwner rolename = false then
        (Response.error "You are not the Owner of this component, so cannot transfer it.", L)
      else
        (Response.success none,
          put L ComponentID
            (Record.comp ⟨component.Retired, newOwner, component.CarID⟩))

/-- Go `MountComponent(role, componentID, carID)`. -/
def MountComponent (args : List String) (L : Ledger) : Response × Ledger :=
  if args.length ≠ 3 then
    (Response.error "Incorrect number of argument: expect 3.", L)
  else
    let role := firstDot (args.getD 0 "")
    if eqFold role "Manufacture" = false then
      (Response.error "Incorrect role: expect Manufacture.", L)
    else
      let ComponentID := args.getD 1 ""
      if CheckIDFormat ComponentID = false then
        (Response.error "Incorrect ComponentID format: expect 9-digit string", L)
      else
        let CarID := args.getD 2 ""
        let component := asComponent (L ComponentID)
        let car := asCar (L CarID)
        if component.Retired = true then
          (Response.error "The given component is already Retired.", L)
        else if eqFold component.CarID "" = false then
          (Response.error "The given component is already mounted.", L)
        else if eqFold car.ComponentID "" = false then
          (Response.error "The given car already mounted with component", L)
        else
          (Response.success none,
            put (put L ComponentID
                  (Record.comp ⟨component.Retired, component.Owner, CarID⟩))
                CarID (Record.car ⟨ComponentID⟩))

/-- Go `ReplaceComponent(role, newComponentID, carID)`. -/
def ReplaceComponent (args : List String) (L : Ledger) : Response × Ledger :=
  if args.length ≠ 3 then
    (Response.error "Incorrect number of argument: expect 3.", L)
  else
    let rolename := args.getD 0 ""
    let role := firstDot rolename
    if eqFold role "Manufacture" = false then
      (Response.error "Incorrect role: expect Manufacture.", L)
    else
      let ComponentID := args.getD 1 ""
      if CheckIDFormat ComponentID = false then
        (Response.error "Incorrect ComponentID format: expect 9-digit string", L)
      else
        let CarID := args.getD 2 ""
        let component := asComponent (L ComponentID)
        let car := asCar (L CarID)
        if component.Retired = true then
          (Response.error "The given component is already Retired.", L)
        else if eqFold component.CarID "" = false then
          (Response.error "The given component is already mounted.", L)
        else if eqFold car.ComponentID "" = true then
          (Response.error "This car doesn\x27t have an old component mounted", L)
        else
          let oldComponentID := car.ComponentID
          let oldComponent := asComponent (L oldComponentID)
          (Response.success none,
            put (put (put L ComponentID
                       (Record.comp ⟨false, oldComponent.Owner, CarID⟩))
                     CarID (Record.car ⟨ComponentID⟩))
                oldComponentID (Record.comp ⟨true, rolename, ""⟩))

/-- Go `RecallComponent(role, componentID)`. -/
def RecallComponent (args : List String) (L : Ledger) : Response × Ledger :=
  if args.length ≠ 2 then
    (Response.error "Incorrect number of argument: expect 2.", L)
  else
    let rolename := args.getD 0 ""
    let role := firstDot rolename
    if eqFold role "Manufacture" = false then
      (Response.error "Incorrect role: expect Manufacture.", L)
    else
      let ComponentID := args.getD 1 ""
      if CheckIDFormat ComponentID = false then
        (Response.error "Incorrect ComponentID format: expect 9-digit string", L)
      else
        let component := asComponent (L ComponentID)
        if component.Retired = true then
          (Response.error "The given component is already Retired.", L)
        else
          (Response.success none,
            put L ComponentID (Record.comp ⟨true, rolename, ""⟩))

/-- Go `CreateCar(role, componentID, carID)`: writes the car record
unconditionally once the role and ID format checks pass. -/
def CreateCar (args : List String) (L : Ledger) : Response × Ledger :=
  if args.length ≠ 3 then
    (Response.error "Incorrect number of argument: expect 3.", L)
  else
    let role := firstDot (args.getD 0 "")
    if eqFold role "Manufacture" = false then
      (Response.error "Incorrect role: expect Manufacture.", L)
    else
      let ComponentID := args.getD 1 ""
      if CheckIDFormat ComponentID = false then
        (Response.error "Incorrect ComponentID format: expect 9-digit string", L)
      else
        let CarID := args.getD 2 ""
        (Response.success none, put L CarID (Record.car ⟨ComponentID⟩))

/-- Go `QueryCar(carID)`: absence is detected on the fetched bytes. -/
def QueryCar (args : List String) (L : Ledger) : Response × Ledger :=
  if args.length ≠ 1 then
    (Response.error "Incorrect number of arguments, expecting 1", L)
  else
    let CarID := args.getD 0 ""
    if L CarID = none then
      (Response.error ("QueryCar Error: CarID " ++ CarID ++ " not found"), L)
    else
      (Response.success (L CarID), L)

/-- Go `QueryComponent(componentID)`: the source tests
`len(ComponentID) == 0` — the length of the *input string*, not of the
fetched bytes — so after `CheckIDFormat` (length 9) the not-found branch
is unreachable and an absent key is returned as a success with nil
payload. -/
def QueryComponent (args : List String) (L : Ledger) : Response × Ledger :=
  if args.length ≠ 1 then
    (Response.error "Incorrect number of arguments, expecting 1", L)
  else
    let ComponentID := args.getD 0 ""
    if CheckIDFormat ComponentID = false then
      (Response.error "Incorrect ComponentID format: expect 9-digit string", L)
    else if ComponentID.length = 0 then
      (Response.error ("QueryComponent Error: ComponentID " ++ ComponentID ++ " not found"), L)
    else
      (Response.success (L ComponentID), L)

/-- Go `Invoke`: dispatch on the function name. -/
def Invoke (fn : String) (args : List String) (L : Ledger) : Response × Ledger :=
  if fn = "AddComponent" then AddComponent args L
  else if fn = "TransferComponent" then TransferComponent args L
  else if fn = "MountComponent" then MountComponent args L
  else if fn = "ReplaceComponent" then ReplaceComponent args L
  else if fn = "RecallComponent" then RecallComponent args L
  else if fn = "InitLedger" then InitLedger L
  else if fn = "CreateCar" then CreateCar args L
  else if fn = "QueryCar" then QueryCar args L
  else if fn = "QueryComponent" then QueryComponent args L
  else (Response.error "Invalid Smart Contract function name.", L)
/-! ## Helper lemmas -/

theorem eqFold_empty_right (s : String) : eqFold s "" = true ↔ s = "" := by
  simp [eqFold, String.ext_iff]

theorem eqFold_empty_left (s : String) : eqFold "" s = true ↔ s = "" := by
  simp [eqFold, String.ext_iff]

theorem length_of_CheckIDFormat {s : String} (h : CheckIDFormat s = true) :
    s.length = 9 := by
  by_cases h9 : s.length = 9
  · exact h9
  · simp [CheckIDFormat, h9] at h

theorem ne_empty_of_CheckIDFormat {s : String} (h : CheckIDFormat s = true) :
    s ≠ "" := by
  intro hs
  have h9 := length_of_CheckIDFormat h
  subst hs
  simp at h9

theorem eqFold_empty_false_of_CheckIDFormat {s : String}
    (h : CheckIDFormat s = true) : eqFold s "" = false := by
  cases heq : eqFold s "" with
  | false => rfl
  | true => exact absurd ((eqFold_empty_right s).mp heq) (ne_empty_of_CheckIDFormat h)

/-- C2 (code bug): for the well-formed ComponentID "123456789" absent from
the ledger, QueryComponent does not fail with a not-found error: it returns
a success with nil payload, because the source tests the length of the
input ID (always 9 after the format gate) instead of the fetched bytes. -/
theorem C2_queryComponent_absent_returns_success_nil :
    QueryComponent ["123456789"] emptyLedger = (Response.success none, emptyLedger) := rfl

/-- C3 counterexample: "+12345678" has length 9, contains the non-digit
sign character '+', yet CheckIDFormat accepts it (strconv.Atoi accepts a
leading sign). -/
theorem C3_counterexample :
    CheckIDFormat "+12345678" = true ∧ "+12345678".data.all Char.isDigit = false ∧
      "+12345678".length = 9 := by decide

/-- C3 amended: CheckIDFormat s is true iff s has length 9 and either every
character of s is a decimal digit, or the first character is an ASCII sign
('+' or '-') and the remaining eight characters are decimal digits. -/
theorem C3_format_characterization (s : String) :
    CheckIDFormat s = true ↔
      s.length = 9 ∧
        (s.data.all Char.isDigit = true ∨
          ∃ c rest, s.data = c :: rest ∧ (c = '+' ∨ c = '-') ∧
            rest.all Char.isDigit = true) := by
  obtain ⟨data⟩ := s
  have hlen : (String.mk data).length = data.length := rfl
  by_cases h9 : data.length = 9
  · have hOk : CheckIDFormat (String.mk data) = atoiOk (String.mk data) := by
      simp only [CheckIDFormat, hlen, h9]
      cases atoiOk (String.mk data) <;> simp
    have key : atoiOk (String.mk data) = true ↔
        (data.all Char.isDigit = true ∨
          ∃ c rest, data = c :: rest ∧ (c = '+' ∨ c = '-') ∧
            rest.all Char.isDigit = true) := by
      cases data with
      | nil => simp at h9
      | cons c rest =>
        simp only [atoiOk]
        by_cases hsign : c = '+' ∨ c = '-'
        · have hb : (decide (c = '+') || decide (c = '-')) = true := by
            rcases hsign with h | h <;> simp [h]
          have hrest : rest ≠ [] := by
            intro hr
            rw [hr] at h9
            simp at h9
          have hne : rest.isEmpty = false := by
            cases rest with
            | nil => exact absurd rfl hrest
            | cons a l => rfl
          have hcd : c.isDigit = false := by
            rcases hsign with h | h <;> subst h <;> decide
          simp only [hb, if_true, hne, Bool.not_false, Bool.true_and]
          constructor
          · intro h
            exact Or.inr ⟨c, rest, rfl, hsign, h⟩
          · intro h
            rcases h with hall | ⟨c', rest', heq, hsign', hall'⟩
            · rw [List.all_cons, hcd] at hall
              simp at hall
            · cases heq
              exact hall'
        · have hb : (decide (c = '+') || decide (c = '-')) = false := by
            rcases Decidable.em (c = '+') with h | h
            · exact absurd (Or.inl h) hsign
            · rcases Decidable.em (c = '-') with h2 | h2
              · exact absurd (Or.inr h2) hsign
              · simp [h, h2]
          simp only [hb, if_false, List.isEmpty_cons, Bool.not_false, Bool.true_and]
          constructor
          · intro h
            exact Or.inl h
          · intro h
            rcases h with hall | ⟨c', rest', heq, hsign', hall'⟩
            · exact hall
            · cases heq
              exact absurd hsign' hsign
    rw [hOk, key, hlen]
    simp [h9]
  · constructor
    · intro h
      exact absurd (by rw [← hlen]; exact length_of_CheckIDFormat h) h9
    · intro h
      rw [hlen] at h
      exact absurd h.1 h9

/-- C6: on a ledger where the well-formed key cid is absent, a Supplier-role
AddComponent succeeds and writes {Retired=false, Owner=the full role string,
CarID=""}; an immediate second AddComponent with the same arguments fails
with the already-used error and leaves the ledger exactly as after the
first call. -/
theorem C6_addComponent_idempotent_rejection (L : Ledger) (r cid : String)
    (hrole : eqFold (firstDot r) "Supplier" = true)
    (hid : CheckIDFormat cid = true)
    (habs : L cid = none) :
    (AddComponent [r, cid] L).1 = Response.success none ∧
    (AddComponent [r, cid] L).2 cid = some (Record.comp ⟨false, r, ""⟩) ∧
    (AddComponent [r, cid] (AddComponent [r, cid] L).2).1 =
      Response.error "The given ComponentID is already used." ∧
    (AddComponent [r, cid] (AddComponent [r, cid] L).2).2 =
      (AddComponent [r, cid] L).2 := by
  simp [AddComponent, hrole, hid, habs, put]

/-- C6 witness at a concrete input. -/
theorem C6_addComponent_idempotent_rejection_witness :
    (AddComponent ["Supplier.s0", "123456789"] emptyLedger).1 = Response.success none ∧
    (AddComponent ["Supplier.s0", "123456789"] emptyLedger).2 "123456789" =
      some (Record.comp ⟨false, "Supplier.s0", ""⟩) ∧
    (AddComponent ["Supplier.s0", "123456789"]
      (AddComponent ["Supplier.s0", "123456789"] emptyLedger).2).1 =
      Response.error "The given ComponentID is already used." ∧
    (AddComponent ["Supplier.s0", "123456789"]
      (AddComponent ["Supplier.s0", "123456789"] emptyLedger).2).2 =
      (AddComponent ["Supplier.s0", "123456789"] emptyLedger).2 :=
  C6_addComponent_idempotent_rejection emptyLedger "Supplier.s0" "123456789"
    (by decide) (by decide) rfl

/-- C9: on a well-formed ComponentID whose key is absent, TransferComponent
reads the zero-value component (Owner = ""), so the call succeeds exactly
when the caller role case-folds equal to the empty string (i.e. is ""),
and in that case it writes a brand-new component {Retired=false,
Owner=newOwner, CarID=""} under that key. -/
theorem C9_transfer_materializes_component (L : Ledger) (r newOwner cid : String)
    (hid : CheckIDFormat cid = true)
    (habs : L cid = none) :
    ((TransferComponent [r, newOwner, cid] L).1 = Response.success none ↔
      eqFold "" r = true) ∧
    (eqFold "" r = true ↔ r = "") ∧
    (r = "" →
      (TransferComponent [r, newOwner, cid] L).2 =
        put L cid (Record.comp ⟨false, newOwner, ""⟩)) := by
  refine ⟨?_, eqFold_empty_left r, ?_⟩
  · cases hfold : eqFold "" r with
    | false => simp [TransferComponent, hid, habs, asComponent, hfold]
    | true => simp [TransferComponent, hid, habs, asComponent, hfold]
  · intro hr
    subst hr
    simp [TransferComponent, hid, habs, asComponent, eqFold]

/-- C9 witness at a concrete input. -/
theorem C9_transfer_materializes_component_witness :
    ((TransferComponent ["", "NewOwner.n", "444444444"] emptyLedger).1 =
        Response.success none ↔ eqFold "" "" = true) ∧
    (eqFold "" "" = true ↔ ("" : String) = "") ∧
    (("" : String) = "" →
      (TransferComponent ["", "NewOwner.n", "444444444"] emptyLedger).2 =
        put emptyLedger "444444444" (Record.comp ⟨false, "NewOwner.n", ""⟩)) :=
  C9_transfer_materializes_component emptyLedger "" "NewOwner.n" "444444444"
    (by decide) rfl

/-- C10 counterexample: with componentID = carID = "333333333" on an empty
ledger, MountComponent succeeds, but the final record under the key is the
Car record (the car write overwrites the component write), not the claimed
Component record {Retired=false, Owner="", CarID=carID}. -/
theorem C10_counterexample :
    (MountComponent ["Manufacture.m", "333333333", "333333333"] emptyLedger).1 =
      Response.success none ∧
    (MountComponent ["Manufacture.m", "333333333", "333333333"] emptyLedger).2
      "333333333" = some (Record.car ⟨"333333333"⟩) := by decide

/-- C10 amended: as the claim states but additionally requiring
carID ≠ componentID: a Manufacture-role mount of a well-formed absent
ComponentID onto a car with no mounted component succeeds and creates the
component record {Retired=false, Owner="", CarID=carID} mounted on the
car. -/
theorem C10_mount_absent_component (L : Ledger) (r cid carID : String)
    (hrole : eqFold (firstDot r) "Manufacture" = true)
    (hid : CheckIDFormat cid = true)
    (habs : L cid = none)
    (hcar : (asCar (L carID)).ComponentID = "")
    (hne : carID ≠ cid) :
    (MountComponent [r, cid, carID] L).1 = Response.success none ∧
    (MountComponent [r, cid, carID] L).2 cid =
      some (Record.comp ⟨false, "", carID⟩) ∧
    (MountComponent [r, cid, carID] L).2 carID = some (Record.car ⟨cid⟩) := by
  have hfold : eqFold (asCar (L carID)).ComponentID "" = true := by
    rw [hcar]
    decide
  simp [MountComponent, hrole, hid, habs, asComponent, hfold, put, hne,
    Ne.symm hne, (by decide : eqFold "" "" = true)]

/-- C10 witness at a concrete input. -/
theorem C10_mount_absent_component_witness :
    (MountComponent ["Manufacture.m0", "777777777", "CARW"] emptyLedger).1 =
      Response.success none ∧
    (MountComponent ["Manufacture.m0", "777777777", "CARW"] emptyLedger).2
      "777777777" = some (Record.comp ⟨false, "", "CARW"⟩) ∧
    (MountComponent ["Manufacture.m0", "777777777", "CARW"] emptyLedger).2
      "CARW" = some (Record.car ⟨"777777777"⟩) :=
  C10_mount_absent_component emptyLedger "Manufacture.m0" "777777777" "CARW"
    (by decide) (by decide) rfl rfl (by decide)

/-- C7: TransferComponent fails with the not-owner error whenever the
stored Owner does not case-fold-equal the caller role; when the owner
matches it succeeds, replaces Owner by newOwner and leaves Retired and
CarID unchanged; and the Retired flag is never checked, so the transfer
also succeeds on a retired component. -/
theorem C7_transfer_ownership_gate (L : Ledger) (r newOwner cid : String)
    (hid : CheckIDFormat cid = true) :
    (eqFold (asComponent (L cid)).Owner r = false →
      TransferComponent [r, newOwner, cid] L =
        (Response.error "You are not the Owner of this component, so cannot transfer it.", L)) ∧
    (eqFold (asComponent (L cid)).Owner r = true →
      TransferComponent [r, newOwner, cid] L =
        (Response.success none,
          put L cid (Record.comp
            ⟨(asComponent (L cid)).Retired, newOwner, (asComponent (L cid)).CarID⟩))) ∧
    ((asComponent (L cid)).Retired = true →
      eqFold (asComponent (L cid)).Owner r = true →
      (TransferComponent [r, newOwner, cid] L).1 = Response.success none) := by
  refine ⟨?_, ?_, ?_⟩
  · intro hfold
    simp [TransferComponent, hid, hfold]
  · intro hfold
    simp [TransferComponent, hid, hfold]
  · intro _ hfold
    simp [TransferComponent, hid, hfold]

/-- C7 witness at a concrete input: a retired, mounted component is
transferred by its owner written in different case. -/
theorem C7_transfer_ownership_gate_witness :
    (eqFold (asComponent ((put emptyLedger "555555555"
        (Record.comp ⟨true, "Dealer.d0", "CARQ"⟩)) "555555555")).Owner "dealer.D0" = false →
      TransferComponent ["dealer.D0", "Supplier.s1", "555555555"]
          (put emptyLedger "555555555" (Record.comp ⟨true, "Dealer.d0", "CARQ"⟩)) =
        (Response.error "You are not the Owner of this component, so cannot transfer it.",
          put emptyLedger "555555555" (Record.comp ⟨true, "Dealer.d0", "CARQ"⟩))) ∧
    (eqFold (asComponent ((put emptyLedger "555555555"
        (Record.comp ⟨true, "Dealer.d0", "CARQ"⟩)) "555555555")).Owner "dealer.D0" = true →
      TransferComponent ["dealer.D0", "Supplier.s1", "555555555"]
          (put emptyLedger "555555555" (Record.comp ⟨true, "Dealer.d0", "CARQ"⟩)) =
        (Response.success none,
          put (put emptyLedger "555555555" (Record.comp ⟨true, "Dealer.d0", "CARQ"⟩))
            "555555555" (Record.comp
              ⟨(asComponent ((put emptyLedger "555555555"
                  (Record.comp ⟨true, "Dealer.d0", "CARQ"⟩)) "555555555")).Retired,
                "Supplier.s1",
                (asComponent ((put emptyLedger "555555555"
                  (Record.comp ⟨true, "Dealer.d0", "CARQ"⟩)) "555555555")).CarID⟩))) ∧
    ((asComponent ((put emptyLedger "555555555"
        (Record.comp ⟨true, "Dealer.d0", "CARQ"⟩)) "555555555")).Retired = true →
      eqFold (asComponent ((put emptyLedger "555555555"
        (Record.comp ⟨true, "Dealer.d0", "CARQ"⟩)) "555555555")).Owner "dealer.D0" = true →
      (TransferComponent ["dealer.D0", "Supplier.s1", "555555555"]
          (put emptyLedger "555555555" (Record.comp ⟨true, "Dealer.d0", "CARQ"⟩))).1 =
        Response.success none) :=
  C7_transfer_ownership_gate
    (put emptyLedger "555555555" (Record.comp ⟨true, "Dealer.d0", "CARQ"⟩))
    "dealer.D0" "Supplier.s1" "555555555" (by decide)

/-- Error responses of AddComponent leave the ledger unchanged. -/
theorem AddComponent_error_frame (args : List String) (L : Ledger) (msg : String)
    (h : (AddComponent args L).1 = Response.error msg) :
    (AddComponent args L).2 = L := by
  simp only [AddComponent] at h ⊢
  split_ifs at h ⊢ <;> rfl

/-- Error responses of TransferComponent leave the ledger unchanged. -/
theorem TransferComponent_error_frame (args : List String) (L : Ledger) (msg : String)
    (h : (TransferComponent args L).1 = Response.error msg) :
    (TransferComponent args L).2 = L := by
  simp only [TransferComponent] at h ⊢
  split_ifs at h ⊢ <;> rfl

/-- Error responses of MountComponent leave the ledger unchanged. -/
theorem MountComponent_error_frame (args : List String) (L : Ledger) (msg : String)
    (h : (MountComponent args L).1 = Response.error msg) :
    (MountComponent args L).2 = L := by
  simp only [MountComponent] at h ⊢
  split_ifs at h ⊢ <;> rfl

/-- Error responses of ReplaceComponent leave the ledger unchanged. -/
theorem ReplaceComponent_error_frame (args : List String) (L : Ledger) (msg : String)
    (h : (ReplaceComponent args L).1 = Response.error msg) :
    (ReplaceComponent args L).2 = L := by
  simp only [ReplaceComponent] at h ⊢
  split_ifs at h ⊢ <;> rfl

/-- Error responses of RecallComponent leave the ledger unchanged. -/
theorem RecallComponent_error_frame (args : List String) (L : Ledger) (msg : String)
    (h : (RecallComponent args L).1 = Response.error msg) :
    (RecallComponent args L).2 = L := by
  simp only [RecallComponent] at h ⊢
  split_ifs at h ⊢ <;> rfl

/-- Error responses of CreateCar leave the ledger unchanged. -/
theorem CreateCar_error_frame (args : List String) (L : Ledger) (msg : String)
    (h : (CreateCar args L).1 = Response.error msg) :
    (CreateCar args L).2 = L := by
  simp only [CreateCar] at h ⊢
  split_ifs at h ⊢ <;> rfl

/-- Error responses of QueryCar leave the ledger unchanged. -/
theorem QueryCar_error_frame (args : List String) (L : Ledger) (msg : String)
    (h : (QueryCar args L).1 = Response.error msg) :
    (QueryCar args L).2 = L := by
  simp only [QueryCar] at h ⊢
  split_ifs at h ⊢ <;> rfl

/-- Error responses of QueryComponent leave the ledger unchanged. -/
theorem QueryComponent_error_frame (args : List String) (L : Ledger) (msg : String)
    (h : (QueryComponent args L).1 = Response.error msg) :
    (QueryComponent args L).2 = L := by
  simp only [QueryComponent] at h ⊢
  split_ifs at h ⊢ <;> rfl

/-- C8: whatever function name, arguments and ledger state, if the
invocation returns an error response then the resulting ledger is exactly
the ledger it started from — no write survives a failed invocation. -/
theorem C8_failure_leaves_ledger_unchanged (fn : String) (args : List String)
    (L : Ledger) (msg : String)
    (h : (Invoke fn args L).1 = Response.error msg) :
    (Invoke fn args L).2 = L := by
  simp only [Invoke] at h ⊢
  split_ifs at h ⊢
  · exact AddComponent_error_frame args L msg h
  · exact TransferComponent_error_frame args L msg h
  · exact MountComponent_error_frame args L msg h
  · exact ReplaceComponent_error_frame args L msg h
  · exact RecallComponent_error_frame args L msg h
  · simp [InitLedger] at h
  · exact CreateCar_error_frame args L msg h
  · exact QueryCar_error_frame args L msg h
  · exact QueryComponent_error_frame args L msg h
  · rfl

/-- C8 witness at a concrete input. -/
theorem C8_failure_leaves_ledger_unchanged_witness :
    (Invoke "AddComponent" [] emptyLedger).2 = emptyLedger :=
  C8_failure_leaves_ledger_unchanged "AddComponent" [] emptyLedger
    "Incorrect number of argument: expect 2." rfl

/-- C5 counterexample: when the car references the very component being
supplied as the "new" one (oldComponentID = newComponentID), a successful
ReplaceComponent leaves that component retired with Owner = role — not
{Retired:false, Owner: old owner, CarID: carID} as the claim states. -/
theorem C5_counterexample :
    (ReplaceComponent ["Manufacture.m", "222222222", "CARX"]
      (put (put emptyLedger "222222222" (Record.comp ⟨false, "Supplier.s0", ""⟩))
        "CARX" (Record.car ⟨"222222222"⟩))).1 = Response.success none ∧
    (asCar ((put (put emptyLedger "222222222" (Record.comp ⟨false, "Supplier.s0", ""⟩))
        "CARX" (Record.car ⟨"222222222"⟩)) "CARX")).ComponentID = "222222222" ∧
    (ReplaceComponent ["Manufacture.m", "222222222", "CARX"]
      (put (put emptyLedger "222222222" (Record.comp ⟨false, "Supplier.s0", ""⟩))
        "CARX" (Record.car ⟨"222222222"⟩))).2 "222222222" =
      some (Record.comp ⟨true, "Manufacture.m", ""⟩) := by decide

/-- C5 amended: after a successful ReplaceComponent(role, cid, carID) where
the car referenced oldID beforehand and the three keys are pairwise
distinct, exactly three records change: the new component becomes
{Retired:false, Owner: the pre-replace owner of the old component, CarID:carID},
the car becomes {ComponentID: cid}, the old component becomes
{Retired:true, Owner: role, CarID:""}; every other key is unchanged. -/
theorem C5_replace_three_writes (L : Ledger) (r cid carID oldID : String)
    (hsucc : (ReplaceComponent [r, cid, carID] L).1 = Response.success none)
    (hold : (asCar (L carID)).ComponentID = oldID)
    (h1 : oldID ≠ cid) (h2 : oldID ≠ carID) (h3 : cid ≠ carID) :
    (ReplaceComponent [r, cid, carID] L).2 cid =
      some (Record.comp ⟨false, (asComponent (L oldID)).Owner, carID⟩) ∧
    (ReplaceComponent [r, cid, carID] L).2 carID = some (Record.car ⟨cid⟩) ∧
    (ReplaceComponent [r, cid, carID] L).2 oldID =
      some (Record.comp ⟨true, r, ""⟩) ∧
    ∀ k, k ≠ cid → k ≠ carID → k ≠ oldID →
      (ReplaceComponent [r, cid, carID] L).2 k = L k := by
  cases hrole : eqFold (firstDot r) "Manufacture" with
  | false => simp [ReplaceComponent, hrole] at hsucc
  | true =>
  cases hid : CheckIDFormat cid with
  | false => simp [ReplaceComponent, hrole, hid] at hsucc
  | true =>
  cases hret : (asComponent (L cid)).Retired with
  | true => simp [ReplaceComponent, hrole, hid, hret] at hsucc
  | false =>
  cases hmnt : eqFold (asComponent (L cid)).CarID "" with
  | false => simp [ReplaceComponent, hrole, hid, hret, hmnt] at hsucc
  | true =>
  cases hcar : eqFold (asCar (L carID)).ComponentID "" with
  | true => simp [ReplaceComponent, hrole, hid, hret, hmnt, hcar] at hsucc
  | false =>
  rw [hold] at hcar
  refine ⟨?_, ?_, ?_, ?_⟩
  · simp [ReplaceComponent, hrole, hid, hret, hmnt, hcar, hold, put,
      Ne.symm h1, h3]
  · simp [ReplaceComponent, hrole, hid, hret, hmnt, hcar, hold, put,
      Ne.symm h2]
  · simp [ReplaceComponent, hrole, hid, hret, hmnt, hcar, hold, put]
  · intro k hk1 hk2 hk3
    simp [ReplaceComponent, hrole, hid, hret, hmnt, hcar, hold, put,
      hk1, hk2, hk3]

/-- C5 witness at a concrete input. -/
theorem C5_replace_three_writes_witness :
    (ReplaceComponent ["Manufacture.m", "888888888", "CARZ"]
      (put (put emptyLedger "999999999" (Record.comp ⟨false, "Supplier.s9", "CARZ"⟩))
        "CARZ" (Record.car ⟨"999999999"⟩))).2 "888888888" =
      some (Record.comp
        ⟨false,
          (asComponent ((put (put emptyLedger "999999999"
              (Record.comp ⟨false, "Supplier.s9", "CARZ"⟩))
            "CARZ" (Record.car ⟨"999999999"⟩)) "999999999")).Owner, "CARZ"⟩) ∧
    (ReplaceComponent ["Manufacture.m", "888888888", "CARZ"]
      (put (put emptyLedger "999999999" (Record.comp ⟨false, "Supplier.s9", "CARZ"⟩))
        "CARZ" (Record.car ⟨"999999999"⟩))).2 "CARZ" =
      some (Record.car ⟨"888888888"⟩) ∧
    (ReplaceComponent ["Manufacture.m", "888888888", "CARZ"]
      (put (put emptyLedger "999999999" (Record.comp ⟨false, "Supplier.s9", "CARZ"⟩))
        "CARZ" (Record.car ⟨"999999999"⟩))).2 "999999999" =
      some (Record.comp ⟨true, "Manufacture.m", ""⟩) ∧
    ∀ k, k ≠ "888888888" → k ≠ "CARZ" → k ≠ "999999999" →
      (ReplaceComponent ["Manufacture.m", "888888888", "CARZ"]
        (put (put emptyLedger "999999999" (Record.comp ⟨false, "Supplier.s9", "CARZ"⟩))
          "CARZ" (Record.car ⟨"999999999"⟩))).2 k =
        (put (put emptyLedger "999999999" (Record.comp ⟨false, "Supplier.s9", "CARZ"⟩))
          "CARZ" (Record.car ⟨"999999999"⟩)) k :=
  C5_replace_three_writes
    (put (put emptyLedger "999999999" (Record.comp ⟨false, "Supplier.s9", "CARZ"⟩))
      "CARZ" (Record.car ⟨"999999999"⟩))
    "Manufacture.m" "888888888" "CARZ" "999999999"
    (by decide) rfl (by decide) (by decide) (by decide)

theorem eqFold_empty_false_iff (s : String) : eqFold s "" = false ↔ s ≠ "" := by
  rw [Bool.eq_false_iff]
  exact not_congr (eqFold_empty_right s)

/-- C4 counterexample: MountComponent accepts the empty carID, and a mount
onto the empty-string car leaves the CarID field of the component empty; a second
mount of the same component onto a different car then succeeds instead of
failing with the already-mounted error. -/
theorem C4_counterexample :
    (MountComponent ["Manufacture.m", "111111111", ""] emptyLedger).1 =
      Response.success none ∧
    (MountComponent ["Manufacture.m", "111111111", "CAR9"]
      (MountComponent ["Manufacture.m", "111111111", ""] emptyLedger).2).1 =
      Response.success none := by decide

/-- C4 amended: for a Manufacture-role call with a well-formed ComponentID,
MountComponent checks retired, then component-mounted, then car-occupied,
in that order, with the stated outcomes, and on success writes both
updated records.  Consequently, after a successful mount of cid onto a car
carID that is neither "" nor cid itself: mounting a different, unretired
and unmounted component onto the same car fails with the car-occupied
error, and mounting cid onto a different car fails with the
already-mounted error. -/
theorem C4_mount_order_and_exclusivity (L : Ledger) (r cid carID : String) :
    (eqFold (firstDot r) "Manufacture" = true →
      CheckIDFormat cid = true →
      (((asComponent (L cid)).Retired = true →
          MountComponent [r, cid, carID] L =
            (Response.error "The given component is already Retired.", L)) ∧
        ((asComponent (L cid)).Retired = false →
          (asComponent (L cid)).CarID ≠ "" →
          MountComponent [r, cid, carID] L =
            (Response.error "The given component is already mounted.", L)) ∧
        ((asComponent (L cid)).Retired = false →
          (asComponent (L cid)).CarID = "" →
          (asCar (L carID)).ComponentID ≠ "" →
          MountComponent [r, cid, carID] L =
            (Response.error "The given car already mounted with component", L)) ∧
        ((asComponent (L cid)).Retired = false →
          (asComponent (L cid)).CarID = "" →
          (asCar (L carID)).ComponentID = "" →
          MountComponent [r, cid, carID] L =
            (Response.success none,
              put (put L cid (Record.comp
                    ⟨(asComponent (L cid)).Retired, (asComponent (L cid)).Owner, carID⟩))
                carID (Record.car ⟨cid⟩))))) ∧
    ((MountComponent [r, cid, carID] L).1 = Response.success none →
      carID ≠ "" → carID ≠ cid →
      ((∀ r2 cid2 : String,
          eqFold (firstDot r2) "Manufacture" = true →
          CheckIDFormat cid2 = true →
          cid2 ≠ cid →
          (asComponent ((MountComponent [r, cid, carID] L).2 cid2)).Retired = false →
          (asComponent ((MountComponent [r, cid, carID] L).2 cid2)).CarID = "" →
          (MountComponent [r2, cid2, carID] (MountComponent [r, cid, carID] L).2).1 =
            Response.error "The given car already mounted with component") ∧
        (∀ r2 carID2 : String,
          eqFold (firstDot r2) "Manufacture" = true →
          carID2 ≠ carID →
          (MountComponent [r2, cid, carID2] (MountComponent [r, cid, carID] L).2).1 =
            Response.error "The given component is already mounted."))) := by
  constructor
  · intro hrole hid
    refine ⟨?_, ?_, ?_, ?_⟩
    · intro hret
      simp [MountComponent, hrole, hid, hret]
    · intro hret hmnt
      simp [MountComponent, hrole, hid, hret,
        (eqFold_empty_false_iff _).mpr hmnt]
    · intro hret hmnt hocc
      simp [MountComponent, hrole, hid, hret,
        (eqFold_empty_right _).mpr hmnt,
        (eqFold_empty_false_iff _).mpr hocc]
    · intro hret hmnt hocc
      simp [MountComponent, hrole, hid, hret,
        (eqFold_empty_right _).mpr hmnt,
        (eqFold_empty_right _).mpr hocc]
  · intro hsucc hK hKC
    cases hrole : eqFold (firstDot r) "Manufacture" with
    | false => simp [MountComponent, hrole] at hsucc
    | true =>
    cases hid : CheckIDFormat cid with
    | false => simp [MountComponent, hrole, hid] at hsucc
    | true =>
    cases hret : (asComponent (L cid)).Retired with
    | true => simp [MountComponent, hrole, hid, hret] at hsucc
    | false =>
    cases hmnt : eqFold (asComponent (L cid)).CarID "" with
    | false => simp [MountComponent, hrole, hid, hret, hmnt] at hsucc
    | true =>
    cases hocc : eqFold (asCar (L carID)).ComponentID "" with
    | false => simp [MountComponent, hrole, hid, hret, hmnt, hocc] at hsucc
    | true =>
    have hL2 : (MountComponent [r, cid, carID] L).2 =
        put (put L cid (Record.comp
              ⟨(asComponent (L cid)).Retired, (asComponent (L cid)).Owner, carID⟩))
          carID (Record.car ⟨cid⟩) := by
      simp [MountComponent, hrole, hid, hret, hmnt, hocc]
    have hcidne : eqFold cid "" = false := eqFold_empty_false_of_CheckIDFormat hid
    constructor
    · intro r2 cid2 hrole2 hid2 hne2 hret2 hmnt2
      rw [hL2] at hret2 hmnt2 ⊢
      have hcar2 : asCar ((put (put L cid (Record.comp
            ⟨(asComponent (L cid)).Retired, (asComponent (L cid)).Owner, carID⟩))
          carID (Record.car ⟨cid⟩)) carID) = ⟨cid⟩ := by
        simp [put, asCar]
      simp [MountComponent, hrole2, hid2, hret2, hmnt2, hcar2, hcidne,
        (by decide : eqFold "" "" = true)]
    · intro r2 carID2 hrole2 hne2
      rw [hL2]
      have hcomp2 : asComponent ((put (put L cid (Record.comp
            ⟨(asComponent (L cid)).Retired, (asComponent (L cid)).Owner, carID⟩))
          carID (Record.car ⟨cid⟩)) cid) =
          ⟨(asComponent (L cid)).Retired, (asComponent (L cid)).Owner, carID⟩ := by
        simp [put, asComponent, Ne.symm hKC]
      rw [hret] at hcomp2
      have hKf : eqFold carID "" = false := (eqFold_empty_false_iff _).mpr hK
      simp [MountComponent, hrole2, hid, hret, hcomp2, hKf]

/-- Transport of the Retired field through an equality of stored
component records. -/
theorem Retired_eq_of_some_comp {c c' : CarComponent}
    (h : (some (Record.comp c) : Option Record) = some (Record.comp c')) :
    c'.Retired = c.Retired := by
  injection h with h1
  injection h1 with h2
  rw [h2]

/-- A key the operation did not touch keeps its retired component. -/
theorem retired_mono_unchanged {L : Ledger} {k : String} {c c' : CarComponent}
    (hbefore : L k = some (Record.comp c)) (hret : c.Retired = true)
    (hafter : L k = some (Record.comp c')) : c'.Retired = true := by
  rw [hbefore] at hafter
  rw [Retired_eq_of_some_comp hafter]
  exact hret

/-- AddComponent never lowers a stored Retired flag. -/
theorem retired_mono_AddComponent (args : List String) (L : Ledger) (k : String)
    (c c' : CarComponent)
    (hbefore : L k = some (Record.comp c)) (hret : c.Retired = true)
    (hafter : (AddComponent args L).2 k = some (Record.comp c')) :
    c'.Retired = true := by
  simp only [AddComponent] at hafter
  split_ifs at hafter with h1 h2 h3 h4
  · exact retired_mono_unchanged hbefore hret hafter
  · exact retired_mono_unchanged hbefore hret hafter
  · exact retired_mono_unchanged hbefore hret hafter
  · exact retired_mono_unchanged hbefore hret hafter
  · simp only [put] at hafter
    split at hafter
    · next hk =>
        exact absurd (by rw [← hk, hbefore]; rfl) h4
    · exact retired_mono_unchanged hbefore hret hafter

/-- TransferComponent never lowers a stored Retired flag. -/
theorem retired_mono_TransferComponent (args : List String) (L : Ledger) (k : String)
    (c c' : CarComponent)
    (hbefore : L k = some (Record.comp c)) (hret : c.Retired = true)
    (hafter : (TransferComponent args L).2 k = some (Record.comp c')) :
    c'.Retired = true := by
  simp only [TransferComponent] at hafter
  split_ifs at hafter with h1 h2 h3
  · exact retired_mono_unchanged hbefore hret hafter
  · exact retired_mono_unchanged hbefore hret hafter
  · exact retired_mono_unchanged hbefore hret hafter
  · simp only [put] at hafter
    split at hafter
    · next hk =>
        rw [Retired_eq_of_some_comp hafter, ← hk, hbefore]
        exact hret
    · exact retired_mono_unchanged hbefore hret hafter

/-- MountComponent never lowers a stored Retired flag on a key that still
holds a component record afterwards. -/
theorem retired_mono_MountComponent (args : List String) (L : Ledger) (k : String)
    (c c' : CarComponent)
    (hbefore : L k = some (Record.comp c)) (hret : c.Retired = true)
    (hafter : (MountComponent args L).2 k = some (Record.comp c')) :
    c'.Retired = true := by
  simp only [MountComponent] at hafter
  split_ifs at hafter with h1 h2 h3 h4 h5 h6
  · exact retired_mono_unchanged hbefore hret hafter
  · exact retired_mono_unchanged hbefore hret hafter
  · exact retired_mono_unchanged hbefore hret hafter
  · exact retired_mono_unchanged hbefore hret hafter
  · exact retired_mono_unchanged hbefore hret hafter
  · exact retired_mono_unchanged hbefore hret hafter
  · simp only [put] at hafter
    split at hafter
    · simp at hafter
    · split at hafter
      · next hk =>
          exact absurd (by rw [← hk, hbefore]; exact hret) h4
      · exact retired_mono_unchanged hbefore hret hafter

/-- ReplaceComponent never lowers a stored Retired flag on a key that
still holds a component record afterwards. -/
theorem retired_mono_ReplaceComponent (args : List String) (L : Ledger) (k : String)
    (c c' : CarComponent)
    (hbefore : L k = some (Record.comp c)) (hret : c.Retired = true)
    (hafter : (ReplaceComponent args L).2 k = some (Record.comp c')) :
    c'.Retired = true := by
  simp only [ReplaceComponent] at hafter
  split_ifs at hafter with h1 h2 h3 h4 h5 h6
  · exact retired_mono_unchanged hbefore hret hafter
  · exact retired_mono_unchanged hbefore hret hafter
  · exact retired_mono_unchanged hbefore hret hafter
  · exact retired_mono_unchanged hbefore hret hafter
  · exact retired_mono_unchanged hbefore hret hafter
  · exact retired_mono_unchanged hbefore hret hafter
  · simp only [put] at hafter
    split at hafter
    · rw [Retired_eq_of_some_comp hafter]
    · split at hafter
      · simp at hafter
      · split at hafter
        · next hk =>
            exact absurd (by rw [← hk, hbefore]; exact hret) h4
        · exact retired_mono_unchanged hbefore hret hafter

/-- RecallComponent never lowers a stored Retired flag. -/
theorem retired_mono_RecallComponent (args : List String) (L : Ledger) (k : String)
    (c c' : CarComponent)
    (hbefore : L k = some (Record.comp c)) (hret : c.Retired = true)
    (hafter : (RecallComponent args L).2 k = some (Record.comp c')) :
    c'.Retired = true := by
  simp only [RecallComponent] at hafter
  split_ifs at hafter with h1 h2 h3 h4
  · exact retired_mono_unchanged hbefore hret hafter
  · exact retired_mono_unchanged hbefore hret hafter
  · exact retired_mono_unchanged hbefore hret hafter
  · exact retired_mono_unchanged hbefore hret hafter
  · simp only [put] at hafter
    split at hafter
    · rw [Retired_eq_of_some_comp hafter]
    · exact retired_mono_unchanged hbefore hret hafter

/-- CreateCar never lowers a stored Retired flag on a key that still holds
a component record afterwards. -/
theorem retired_mono_CreateCar (args : List String) (L : Ledger) (k : String)
    (c c' : CarComponent)
    (hbefore : L k = some (Record.comp c)) (hret : c.Retired = true)
    (hafter : (CreateCar args L).2 k = some (Record.comp c')) :
    c'.Retired = true := by
  simp only [CreateCar] at hafter
  split_ifs at hafter with h1 h2 h3
  · exact retired_mono_unchanged hbefore hret hafter
  · exact retired_mono_unchanged hbefore hret hafter
  · exact retired_mono_unchanged hbefore hret hafter
  · simp only [put] at hafter
    split at hafter
    · simp at hafter
    · exact retired_mono_unchanged hbefore hret hafter

/-- QueryCar writes nothing. -/
theorem retired_mono_QueryCar (args : List String) (L : Ledger) (k : String)
    (c c' : CarComponent)
    (hbefore : L k = some (Record.comp c)) (hret : c.Retired = true)
    (hafter : (QueryCar args L).2 k = some (Record.comp c')) :
    c'.Retired = true := by
  simp only [QueryCar] at hafter
  split_ifs at hafter <;> exact retired_mono_unchanged hbefore hret hafter

/-- QueryComponent writes nothing. -/
theorem retired_mono_QueryComponent (args : List String) (L : Ledger) (k : String)
    (c c' : CarComponent)
    (hbefore : L k = some (Record.comp c)) (hret : c.Retired = true)
    (hafter : (QueryComponent args L).2 k = some (Record.comp c')) :
    c'.Retired = true := by
  simp only [QueryComponent] at hafter
  split_ifs at hafter <;> exact retired_mono_unchanged hbefore hret hafter

/-- C1 counterexample: InitLedger un-retires: on a ledger where key
"000000000" holds a retired component, InitLedger overwrites it with the
fixed sample record whose Retired field is false. -/
theorem C1_counterexample :
    (put emptyLedger "000000000" (Record.comp ⟨true, "Manufacture.m0", ""⟩))
      "000000000" = some (Record.comp ⟨true, "Manufacture.m0", ""⟩) ∧
    (Invoke "InitLedger" []
        (put emptyLedger "000000000" (Record.comp ⟨true, "Manufacture.m0", ""⟩))).2
      "000000000" = some (Record.comp ⟨false, "Supplier.s0", "CAR0"⟩) := by decide

/-- C1 amended: for every operation other than InitLedger, a Retired flag
that is true in a stored component record is still true after the
operation, provided the key still holds a component record (InitLedger
unconditionally rewrites its six sample keys; the mount/create/replace car
writes may replace a component record by a Car record when handed its key
as carID, which the still-a-component hypothesis excludes). -/
theorem C1_retired_monotonic (fn : String) (args : List String) (L : Ledger)
    (k : String) (c c' : CarComponent)
    (hfn : fn ≠ "InitLedger")
    (hbefore : L k = some (Record.comp c)) (hret : c.Retired = true)
    (hafter : (Invoke fn args L).2 k = some (Record.comp c')) :
    c'.Retired = true := by
  simp only [Invoke] at hafter
  split_ifs at hafter with h1 h2 h3 h4 h5 h6 h7 h8
  · exact retired_mono_AddComponent args L k c c' hbefore hret hafter
  · exact retired_mono_TransferComponent args L k c c' hbefore hret hafter
  · exact retired_mono_MountComponent args L k c c' hbefore hret hafter
  · exact retired_mono_ReplaceComponent args L k c c' hbefore hret hafter
  · exact retired_mono_RecallComponent args L k c c' hbefore hret hafter
  · exact retired_mono_CreateCar args L k c c' hbefore hret hafter
  · exact retired_mono_QueryCar args L k c c' hbefore hret hafter
  · exact retired_mono_QueryComponent args L k c c' hbefore hret hafter
  · exact retired_mono_unchanged hbefore hret hafter

/-- C1 witness at a concrete input: a recall of another component leaves a
previously retired component retired. -/
theorem C1_retired_monotonic_witness :
    (⟨true, "Dealer.d1", ""⟩ : CarComponent).Retired = true :=
  C1_retired_monotonic "RecallComponent" ["Manufacture.m0", "000000001"]
    (put emptyLedger "000000000" (Record.comp ⟨true, "Dealer.d1", ""⟩))
    "000000000" ⟨true, "Dealer.d1", ""⟩ ⟨true, "Dealer.d1", ""⟩
    (by decide) (by decide) rfl (by decide)
